import Mathlib

/-!
Shallow embedding of the overspeed / telemetry subsystem of the
Droptimize driver app (src/provider/OverspeedProvider.js).

Machine numbers are modelled as rationals (JS numbers are floats; all the
constants and comparisons involved here are exact in ℚ), timestamps as ℤ
milliseconds, and the haversine distance of the external
"haversine-distance" library as an abstract function parameter
`dist : Coord → Coord → ℚ`.
-/

namespace Droptimize

/-- JS Math.round: round half toward positive infinity. -/
def jsRound (q : ℚ) : ℤ := ⌊q + 1/2⌋

/-- A geographic coordinate (latitude, longitude). -/
structure Coord where
  latitude : ℚ
  longitude : ℚ
deriving DecidableEq

/-- A JavaScript value as it may appear in a raw zone field such as
`speedLimit` or `radius`: `undefined`, `null`, the empty string, a value
whose `Number()` conversion is NaN, or a value whose `Number()` conversion
is the finite number `q`. -/
inductive JsVal where
  | undef
  | jsNull
  | emptyStr
  | nanVal
  | num (q : ℚ)
deriving DecidableEq

def DEFAULT_SPEED_LIMIT : ℚ := 60
def DEFAULT_ZONE_RADIUS : ℚ := 15
def VIOLATION_COOLDOWN_MS : ℤ := 60000
def MIN_SPEED_FOR_VIOLATION : ℤ := 5
def OVERSPEED_GRACE_PERIOD_MS : ℤ := 10000
def SPEED_CORRECTION_FACTOR : ℚ := 1.12

/-- The ZONE_DEFAULT_SPEEDS lookup table: `some` for the categories
present in the object literal, `none` for any other key. -/
def ZONE_DEFAULT_SPEEDS (category : String) : Option ℚ :=
  if category = "Crosswalk" then some 15
  else if category = "School" then some 20
  else if category = "Schools" then some 20
  else if category = "Church" then some 30
  else if category = "Curve" then some 40
  else if category = "Slippery" then some 40
  else if category = "Slowdown" then some 40
  else if category = "Default" then some DEFAULT_SPEED_LIMIT
  else none

/-- `ZONE_DEFAULT_SPEEDS[category] || DEFAULT_SPEED_LIMIT`. Every entry of
the table is a positive number (truthy), so the JS `||` is exactly the
`Option.getD` fallback on a missing key. -/
def categoryDefaultLimit (category : String) : ℚ :=
  (ZONE_DEFAULT_SPEEDS category).getD DEFAULT_SPEED_LIMIT

/-- The `finalSpeedLimit` computation of `loadBranchSlowdowns`: an admin
value that is present (not undefined/null/"") and converts to a number
that is not NaN and strictly positive wins; anything else falls back to
the category default table, then to the global default. -/
def finalSpeedLimit (adminSpeedLimit : JsVal) (category : String) : ℚ :=
  match adminSpeedLimit with
  | .num q => if 0 < q then q else categoryDefaultLimit category
  | _ => categoryDefaultLimit category

/-- The `effectiveSpeedLimit` computation of `checkActiveZoneWithDetails`:
the guard is `speedLimit !== undefined && speedLimit !== null`, then
`Number(speedLimit) > 0` decides. `Number("") = 0` and `NaN > 0` is
false, so the empty string and NaN both fall back as well. -/
def effectiveSpeedLimit (speedLimit : JsVal) (category : String) : ℚ :=
  match speedLimit with
  | .undef => categoryDefaultLimit category
  | .jsNull => categoryDefaultLimit category
  | .emptyStr => categoryDefaultLimit category
  | .nanVal => categoryDefaultLimit category
  | .num q => if 0 < q then q else categoryDefaultLimit category

/-- `z.category || "Default"`: the empty string is falsy in JS. -/
def jsCategory (c : String) : String := if c = "" then "Default" else c

/-- `Number(z.radius) > 0 ? Number(z.radius) : DEFAULT_ZONE_RADIUS`. -/
def effectiveRadius (radius : JsVal) : ℚ :=
  match radius with
  | .num q => if 0 < q then q else DEFAULT_ZONE_RADIUS
  | _ => DEFAULT_ZONE_RADIUS

/-- A zone entry as stored in `slowdownsRef` (the list produced by
`loadBranchSlowdowns`): `center` is `some` exactly when both
`location.lat` and `location.lng` are numbers. -/
structure Zone where
  id : String
  category : String
  center : Option Coord
  radius : JsVal
  speedLimit : JsVal
deriving DecidableEq

/-- The zone object returned by `checkActiveZoneWithDetails`: the spread
`{...z, speedLimit: effectiveSpeedLimit}` with the fields this subsystem
reads afterwards. -/
structure ResolvedZone where
  id : String
  category : String
  speedLimit : ℚ
deriving DecidableEq

def resolvedOf (z : Zone) : ResolvedZone :=
  { id := z.id
    category := z.category
    speedLimit := effectiveSpeedLimit z.speedLimit (jsCategory z.category) }

/-- Whether a zone contains the coordinate: it must have a numeric center
and the haversine distance must be at most the effective radius. -/
def zoneHit (dist : Coord → Coord → ℚ) (coord : Coord) (z : Zone) : Bool :=
  match z.center with
  | some c => decide (dist coord c ≤ effectiveRadius z.radius)
  | none => false

/-- `checkActiveZoneWithDetails`: scan the loaded zones in order, skip
entries without numeric center coordinates, and return the first zone
whose distance from the coordinate is within its radius, with its
effective speed limit substituted. -/
def checkActiveZoneWithDetails (dist : Coord → Coord → ℚ)
    (zones : List Zone) (coord : Coord) : Option ResolvedZone :=
  match zones with
  | [] => none
  | z :: rest =>
    if zoneHit dist coord z then some (resolvedOf z)
    else checkActiveZoneWithDetails dist rest coord

/-! ## Speed estimator (`calculateSpeedKmh`) -/

/-- The `prevFixRef` memory: previous coordinate (null at start) and its
timestamp (0 at start). -/
structure PrevFix where
  coord : Option Coord
  ts : ℤ
deriving DecidableEq

/-- A position update as delivered by the location service: `speedMps` is
`some s` exactly when `pos.coords.speed` is a finite number `s`. -/
structure Position where
  latitude : ℚ
  longitude : ℚ
  speedMps : Option ℚ
  timestamp : ℤ
deriving DecidableEq

/-- `pos.timestamp || Date.now()`: a zero timestamp is falsy. -/
def positionTs (now : ℤ) (pos : Position) : ℤ :=
  if pos.timestamp = 0 then now else pos.timestamp

/-- The `gps` candidate: `Number.isFinite(speed) && speed > 0 ? speed * 3.6
: NaN`, as an `Option`. -/
def gpsCandidate (pos : Position) : Option ℚ :=
  match pos.speedMps with
  | some s => if 0 < s then some (s * 3.6) else none
  | none => none

/-- The `derived` candidate: needs a previous coordinate and a nonzero
previous timestamp; distance over elapsed seconds floored at 1 s, times
3.6, kept only when the distance is positive. -/
def derivedCandidate (dist : Coord → Coord → ℚ) (now : ℤ)
    (prev : PrevFix) (pos : Position) : Option ℚ :=
  match prev.coord with
  | none => none
  | some pc =>
    if prev.ts = 0 then none
    else
      let d := dist pc ⟨pos.latitude, pos.longitude⟩
      let dt : ℚ := max 1 ((((positionTs now pos : ℤ) : ℚ) - (prev.ts : ℚ)) / 1000)
      if 0 < d ∧ 0 < dt then some (d / dt * 3.6) else none

/-- `calculateSpeedKmh`: prefer the gps candidate when it is below 200,
otherwise the derived candidate when it is below 200, otherwise 0; the
gps branch applies the correction factor before rounding; a result below
2 km/h is snapped to 0. Returns the speed and the updated `prevFixRef`. -/
def calculateSpeedKmh (dist : Coord → Coord → ℚ) (now : ℤ)
    (prev : PrevFix) (pos : Position) : ℤ × PrevFix :=
  let gps := gpsCandidate pos
  let derived := derivedCandidate dist now prev pos
  let fromDerived : ℤ :=
    match derived with
    | some dv => if dv < 200 then jsRound dv else 0
    | none => 0
  let kmh : ℤ :=
    match gps with
    | some g => if g < 200 then jsRound (g * SPEED_CORRECTION_FACTOR) else fromDerived
    | none => fromDerived
  (if kmh < 2 then 0 else kmh, ⟨some ⟨pos.latitude, pos.longitude⟩, positionTs now pos⟩)

/-! ## Violation detector (`checkAndLogOverspeed`) -/

/-- The mutable refs read and written by `checkAndLogOverspeed`:
`overspeedStartTimeRef` (null initially), `lastViolationTsRef` (0
initially) and `lastZoneViolationIdRef` (null initially). -/
structure OverspeedState where
  overspeedStartTime : Option ℤ
  lastViolationTs : ℤ
  lastZoneViolationId : Option String
deriving DecidableEq

def initialOverspeedState : OverspeedState :=
  { overspeedStartTime := none, lastViolationTs := 0, lastZoneViolationId := none }

/-- `zone?.speedLimit || DEFAULT_SPEED_LIMIT`: 0 is falsy in JS. -/
def jsLimitOr (v : Option ℚ) (d : ℚ) : ℚ :=
  match v with
  | some q => if q = 0 then d else q
  | none => d

/-- The speed limit `checkAndLogOverspeed` compares against at a
coordinate. -/
def limitAt (dist : Coord → Coord → ℚ) (zones : List Zone) (coord : Coord) : ℚ :=
  jsLimitOr ((checkActiveZoneWithDetails dist zones coord).map (·.speedLimit))
    DEFAULT_SPEED_LIMIT

/-- The zone key used for the cooldown comparison: `zone?.id ?? "default"`. -/
def zoneKeyAt (dist : Coord → Coord → ℚ) (zones : List Zone) (coord : Coord) : String :=
  ((checkActiveZoneWithDetails dist zones coord).map (·.id)).getD "default"

/-- One invocation of `checkAndLogOverspeed`: returns the updated refs and
whether a Violation record was written on this tick. -/
def checkAndLogOverspeed (dist : Coord → Coord → ℚ) (zones : List Zone)
    (status : String) (coord : Coord) (speedKmh : ℤ) (now : ℤ)
    (st : OverspeedState) : OverspeedState × Bool :=
  if status ≠ "Delivering" then ({ st with overspeedStartTime := none }, false)
  else if speedKmh < MIN_SPEED_FOR_VIOLATION then
    ({ st with overspeedStartTime := none }, false)
  else if (speedKmh : ℚ) ≤ limitAt dist zones coord then
    ({ st with overspeedStartTime := none }, false)
  else
    match st.overspeedStartTime with
    | none => ({ st with overspeedStartTime := some now }, false)
    | some t0 =>
      if OVERSPEED_GRACE_PERIOD_MS ≤ now - t0 then
        if now - st.lastViolationTs < VIOLATION_COOLDOWN_MS ∧
            zoneKeyAt dist zones coord = st.lastZoneViolationId.getD "default" then
          (st, false)
        else
          ({ overspeedStartTime := none
             lastViolationTs := now
             lastZoneViolationId := some (zoneKeyAt dist zones coord) }, true)
      else (st, false)

/-- One tick of input to the detector. -/
structure Tick where
  status : String
  coord : Coord
  speedKmh : ℤ
  now : ℤ
deriving DecidableEq

/-- Run the detector over a sequence of ticks, counting written Violation
records. -/
def runTicks (dist : Coord → Coord → ℚ) (zones : List Zone) :
    List Tick → OverspeedState → OverspeedState × ℕ
  | [], st => (st, 0)
  | t :: rest, st =>
    let r := checkAndLogOverspeed dist zones t.status t.coord t.speedKmh t.now st
    let r2 := runTicks dist zones rest r.1
    (r2.1, (if r.2 then 1 else 0) + r2.2)

/-- A tick on which the detector is in its overspeeding condition: status
Delivering, speed at least the 5 km/h minimum, and speed strictly above
the applicable limit. -/
def overspeedTick (dist : Coord → Coord → ℚ) (zones : List Zone) (t : Tick) : Prop :=
  t.status = "Delivering" ∧ MIN_SPEED_FOR_VIOLATION ≤ t.speedKmh ∧
    limitAt dist zones t.coord < (t.speedKmh : ℚ)

/-! ## Trip metrics (`startLocationWatch` callback, shift-active branch,
and `calculateAverageSpeed`) -/

/-- `calculateAverageSpeed` over the `speedReadingsRef` history. -/
def calculateAverageSpeed (readings : List ℤ) : ℤ :=
  if readings = [] then 0
  else jsRound ((readings.sum : ℚ) / readings.length)

/-- The metrics refs and states touched on each fix while a shift is
active. -/
structure MetricsState where
  totalDistance : ℚ
  topSpeed : ℤ
  speedReadings : List ℤ
  lastLocation : Option Coord
deriving DecidableEq

/-- The shift-active branch of the position-watch callback: top speed is
the max, the speed reading is appended only when strictly positive, the
displacement is added to the total only when strictly between 0.001 km
and 0.5 km, and the last-known location is updated unconditionally. -/
def metricsOnFix (dist : Coord → Coord → ℚ) (kmh : ℤ) (newLoc : Coord)
    (st : MetricsState) : MetricsState :=
  let top := if st.topSpeed < kmh then kmh else st.topSpeed
  let readings := if 0 < kmh then st.speedReadings ++ [kmh] else st.speedReadings
  let total :=
    match st.lastLocation with
    | some ll =>
      let d := dist ll newLoc
      if 0.001 < d ∧ d < 0.5 then st.totalDistance + d else st.totalDistance
    | none => st.totalDistance
  { totalDistance := total
    topSpeed := top
    speedReadings := readings
    lastLocation := some newLoc }

/-- Fold the metrics update over a sequence of (speed, location) fixes. -/
def runMetrics (dist : Coord → Coord → ℚ) (fixes : List (ℤ × Coord))
    (st : MetricsState) : MetricsState :=
  fixes.foldl (fun s f => metricsOnFix dist f.1 f.2 s) st

/-! ## Helper lemmas -/

theorem jsRound_le_of_lt {q : ℚ} {n : ℤ} (h : q < n) : jsRound q ≤ n := by
  have h1 : q + 1/2 < ((n + 1 : ℤ) : ℚ) := by push_cast; linarith
  exact Int.lt_add_one_iff.mp (Int.floor_lt.mpr h1)

/-- Reset branch of the detector: wrong status, speed under the 5 km/h
minimum, or speed at or under the limit clears the grace timer and writes
nothing. -/
theorem checkAndLog_reset (dist : Coord → Coord → ℚ) (zones : List Zone)
    (status : String) (coord : Coord) (speedKmh : ℤ) (now : ℤ)
    (st : OverspeedState)
    (h : status ≠ "Delivering" ∨ speedKmh < MIN_SPEED_FOR_VIOLATION ∨
      (speedKmh : ℚ) ≤ limitAt dist zones coord) :
    checkAndLogOverspeed dist zones status coord speedKmh now st =
      ({ st with overspeedStartTime := none }, false) := by
  unfold checkAndLogOverspeed
  rcases h with h | h | h
  · rw [if_pos h]
  · by_cases hs : status ≠ "Delivering"
    · rw [if_pos hs]
    · rw [if_neg hs, if_pos h]
  · by_cases hs : status ≠ "Delivering"
    · rw [if_pos hs]
    · rw [if_neg hs]
      by_cases hm : speedKmh < MIN_SPEED_FOR_VIOLATION
      · rw [if_pos hm]
      · rw [if_neg hm, if_pos h]

/-- Start branch: an overspeeding tick from a cleared grace timer starts
the grace period at the tick time and writes nothing. -/
theorem checkAndLog_start (dist : Coord → Coord → ℚ) (zones : List Zone)
    (coord : Coord) (speedKmh : ℤ) (now : ℤ) (st : OverspeedState)
    (hmin : MIN_SPEED_FOR_VIOLATION ≤ speedKmh)
    (hlim : limitAt dist zones coord < (speedKmh : ℚ))
    (h0 : st.overspeedStartTime = none) :
    checkAndLogOverspeed dist zones "Delivering" coord speedKmh now st =
      ({ st with overspeedStartTime := some now }, false) := by
  unfold checkAndLogOverspeed
  rw [if_neg (by simp), if_neg (not_lt.mpr hmin), if_neg (not_le.mpr hlim), h0]

/-- Grace branch: an overspeeding tick strictly inside the grace window
changes nothing and writes nothing. -/
theorem checkAndLog_grace (dist : Coord → Coord → ℚ) (zones : List Zone)
    (coord : Coord) (speedKmh : ℤ) (now : ℤ) (st : OverspeedState) (t0 : ℤ)
    (hmin : MIN_SPEED_FOR_VIOLATION ≤ speedKmh)
    (hlim : limitAt dist zones coord < (speedKmh : ℚ))
    (hg : st.overspeedStartTime = some t0)
    (hshort : now - t0 < OVERSPEED_GRACE_PERIOD_MS) :
    checkAndLogOverspeed dist zones "Delivering" coord speedKmh now st = (st, false) := by
  unfold checkAndLogOverspeed
  rw [if_neg (by simp), if_neg (not_lt.mpr hmin), if_neg (not_le.mpr hlim), hg]
  exact if_neg (not_le.mpr hshort)

/-- Suppression branch: a confirmed overspeed inside the cooldown window
for the same zone key changes nothing and writes nothing. -/
theorem checkAndLog_suppress (dist : Coord → Coord → ℚ) (zones : List Zone)
    (coord : Coord) (speedKmh : ℤ) (now : ℤ) (st : OverspeedState) (t0 : ℤ)
    (hmin : MIN_SPEED_FOR_VIOLATION ≤ speedKmh)
    (hlim : limitAt dist zones coord < (speedKmh : ℚ))
    (hg : st.overspeedStartTime = some t0)
    (hlong : OVERSPEED_GRACE_PERIOD_MS ≤ now - t0)
    (hcool : now - st.lastViolationTs < VIOLATION_COOLDOWN_MS)
    (hsame : zoneKeyAt dist zones coord = st.lastZoneViolationId.getD "default") :
    checkAndLogOverspeed dist zones "Delivering" coord speedKmh now st = (st, false) := by
  unfold checkAndLogOverspeed
  rw [if_neg (by simp), if_neg (not_lt.mpr hmin), if_neg (not_le.mpr hlim), hg]
  dsimp only
  rw [if_pos hlong, if_pos ⟨hcool, hsame⟩]

/-- Emission branch: a confirmed overspeed outside the cooldown window, or
in a different zone, writes exactly one Violation record and updates the
cooldown bookkeeping. -/
theorem checkAndLog_emit (dist : Coord → Coord → ℚ) (zones : List Zone)
    (coord : Coord) (speedKmh : ℤ) (now : ℤ) (st : OverspeedState) (t0 : ℤ)
    (hmin : MIN_SPEED_FOR_VIOLATION ≤ speedKmh)
    (hlim : limitAt dist zones coord < (speedKmh : ℚ))
    (hg : st.overspeedStartTime = some t0)
    (hlong : OVERSPEED_GRACE_PERIOD_MS ≤ now - t0)
    (hfree : VIOLATION_COOLDOWN_MS ≤ now - st.lastViolationTs ∨
      zoneKeyAt dist zones coord ≠ st.lastZoneViolationId.getD "default") :
    checkAndLogOverspeed dist zones "Delivering" coord speedKmh now st =
      ({ overspeedStartTime := none
         lastViolationTs := now
         lastZoneViolationId := some (zoneKeyAt dist zones coord) }, true) := by
  unfold checkAndLogOverspeed
  rw [if_neg (by simp), if_neg (not_lt.mpr hmin), if_neg (not_le.mpr hlim), hg]
  dsimp only
  rw [if_pos hlong, if_neg]
  rintro ⟨hc, hz⟩
  rcases hfree with hf | hf
  · exact absurd hc (not_lt.mpr hf)
  · exact hf hz

theorem runTicks_append (dist : Coord → Coord → ℚ) (zones : List Zone)
    (l1 l2 : List Tick) (st : OverspeedState) :
    runTicks dist zones (l1 ++ l2) st =
      ((runTicks dist zones l2 (runTicks dist zones l1 st).1).1,
        (runTicks dist zones l1 st).2 +
          (runTicks dist zones l2 (runTicks dist zones l1 st).1).2) := by
  induction l1 generalizing st with
  | nil => simp [runTicks]
  | cons t rest ih =>
    simp only [List.cons_append, runTicks, List.append_eq]
    rw [ih]
    simp [Nat.add_assoc]

/-- Running any number of overspeeding ticks that all fall strictly inside
the grace window started at `t0` leaves the state unchanged and writes
nothing. -/
theorem runTicks_steady (dist : Coord → Coord → ℚ) (zones : List Zone)
    (l : List Tick) (st : OverspeedState) (t0 : ℤ)
    (hg : st.overspeedStartTime = some t0)
    (hall : ∀ t ∈ l, overspeedTick dist zones t ∧
      t.now - t0 < OVERSPEED_GRACE_PERIOD_MS) :
    runTicks dist zones l st = (st, 0) := by
  induction l with
  | nil => rfl
  | cons t rest ih =>
    obtain ⟨⟨hs, hmin, hlim⟩, hshort⟩ := hall t (List.mem_cons_self t rest)
    have hstep : checkAndLogOverspeed dist zones t.status t.coord t.speedKmh t.now st
        = (st, false) := by
      rw [hs]
      exact checkAndLog_grace dist zones t.coord t.speedKmh t.now st t0 hmin hlim hg hshort
    simp only [runTicks, hstep]
    rw [ih (fun x hx => hall x (List.mem_cons_of_mem t hx))]
    rfl

theorem categoryDefaultLimit_pos (cat : String) : 0 < categoryDefaultLimit cat := by
  unfold categoryDefaultLimit ZONE_DEFAULT_SPEEDS DEFAULT_SPEED_LIMIT
  split_ifs <;> norm_num

theorem finalSpeedLimit_pos (raw : JsVal) (cat : String) :
    0 < finalSpeedLimit raw cat := by
  cases raw with
  | num q =>
    simp only [finalSpeedLimit]
    split_ifs with h
    · exact h
    · exact categoryDefaultLimit_pos cat
  | undef => exact categoryDefaultLimit_pos cat
  | jsNull => exact categoryDefaultLimit_pos cat
  | emptyStr => exact categoryDefaultLimit_pos cat
  | nanVal => exact categoryDefaultLimit_pos cat

/-! ## Claim theorems -/

/-- C4: For every raw zone entry, the effective speed limit is resolved by
ordered fallback: an explicit admin-set limit is used only when it
converts to a number strictly greater than 0; otherwise the per-category
default (Crosswalk 15, School 20, Church 30, Curve/Slippery 40, Slowdown
40) is used; otherwise the global default 60. No missing, zero or
negative admin value ever yields an effective limit of 0, and the
check-time resolution agrees with the load-time resolution. -/
theorem c4_speed_limit_fallback (raw : JsVal) (cat : String) :
    (∀ q : ℚ, raw = JsVal.num q → 0 < q → finalSpeedLimit raw cat = q)
    ∧ ((∀ q : ℚ, raw = JsVal.num q → q ≤ 0) →
      finalSpeedLimit raw cat = categoryDefaultLimit cat)
    ∧ categoryDefaultLimit "Crosswalk" = 15
    ∧ categoryDefaultLimit "School" = 20
    ∧ categoryDefaultLimit "Church" = 30
    ∧ categoryDefaultLimit "Curve" = 40
    ∧ categoryDefaultLimit "Slippery" = 40
    ∧ categoryDefaultLimit "Slowdown" = 40
    ∧ (cat ∉ ["Crosswalk", "School", "Schools", "Church", "Curve", "Slippery",
        "Slowdown", "Default"] → categoryDefaultLimit cat = DEFAULT_SPEED_LIMIT)
    ∧ 0 < finalSpeedLimit raw cat
    ∧ effectiveSpeedLimit raw cat = finalSpeedLimit raw cat := by
  refine ⟨?_, ?_, by decide, by decide, by decide, by decide, by decide, by decide,
    ?_, finalSpeedLimit_pos raw cat, by cases raw <;> rfl⟩
  · intro q hq hqpos
    subst hq
    simp only [finalSpeedLimit, if_pos hqpos]
  · intro h
    cases raw with
    | num q => simp only [finalSpeedLimit, if_neg (not_lt.mpr (h q rfl))]
    | undef => rfl
    | jsNull => rfl
    | emptyStr => rfl
    | nanVal => rfl
  · intro h
    simp only [List.mem_cons, List.not_mem_nil, or_false, not_or] at h
    obtain ⟨h1, h2, h3, h4, h5, h6, h7, h8⟩ := h
    simp [categoryDefaultLimit, ZONE_DEFAULT_SPEEDS, h1, h2, h3, h4, h5, h6, h7, h8]

/-- Witness for C4: a negative admin limit on a Crosswalk zone falls back
to the category default 15, a positive admin limit of 25 wins, and a
missing admin value on an unknown category is still positive. -/
theorem c4_speed_limit_fallback_witness :
    finalSpeedLimit (JsVal.num (-3)) "Crosswalk" = 15
    ∧ finalSpeedLimit (JsVal.num 25) "Crosswalk" = 25
    ∧ 0 < finalSpeedLimit JsVal.undef "Playground" := by
  refine ⟨?_, ?_, ?_⟩
  · have h := c4_speed_limit_fallback (JsVal.num (-3)) "Crosswalk"
    rw [h.2.1 (fun q hq => by injection hq with h2; rw [← h2]; norm_num)]
    exact h.2.2.1
  · exact (c4_speed_limit_fallback (JsVal.num 25) "Crosswalk").1 25 rfl (by norm_num)
  · obtain ⟨-, -, -, -, -, -, -, -, -, hpos, -⟩ :=
      c4_speed_limit_fallback JsVal.undef "Playground"
    exact hpos

/-- C5: Zone resolution is a deterministic pure function of the coordinate
and the loaded zone list: it scans in load order, skips zones without a
numeric center, returns the first zone whose distance is at most its
effective radius, and returns none exactly when no zone contains the
point. -/
theorem c5_zone_resolution (dist : Coord → Coord → ℚ) (coord : Coord) :
    (∀ (pre : List Zone) (z : Zone) (post : List Zone),
      (∀ y ∈ pre, zoneHit dist coord y = false) → zoneHit dist coord z = true →
      checkActiveZoneWithDetails dist (pre ++ z :: post) coord = some (resolvedOf z))
    ∧ (∀ zones : List Zone,
      checkActiveZoneWithDetails dist zones coord = none ↔
        ∀ z ∈ zones, zoneHit dist coord z = false) := by
  constructor
  · intro pre z post
    induction pre with
    | nil =>
      intro _ hz
      simp [checkActiveZoneWithDetails, hz]
    | cons y ys ih =>
      intro hpre hz
      have hy : zoneHit dist coord y = false := hpre y (List.mem_cons_self y ys)
      simp only [List.cons_append, checkActiveZoneWithDetails, hy, Bool.false_eq_true,
        if_false]
      exact ih (fun x hx => hpre x (List.mem_cons_of_mem y hx)) hz
  · intro zones
    induction zones with
    | nil => simp [checkActiveZoneWithDetails]
    | cons z rest ih =>
      by_cases hz : zoneHit dist coord z = true
      · simp [checkActiveZoneWithDetails, List.forall_mem_cons, hz]
      · simp only [Bool.not_eq_true] at hz
        simp [checkActiveZoneWithDetails, List.forall_mem_cons, hz, ih]

/-- Two overlapping zones used by the C5 witness, both containing the
witness point under the witness distance function. -/
def zoneA : Zone :=
  { id := "1", category := "School", center := some ⟨14, 121⟩
    radius := JsVal.num 20, speedLimit := JsVal.undef }

def zoneB : Zone :=
  { id := "2", category := "Church", center := some ⟨14, 121⟩
    radius := JsVal.num 20, speedLimit := JsVal.undef }

/-- Witness for C5: with both overlapping zones containing the point, the
first zone in load order is returned. -/
theorem c5_zone_resolution_witness :
    checkActiveZoneWithDetails (fun _ _ => 5) [zoneA, zoneB] ⟨14, 121⟩ =
      some (resolvedOf zoneA) := by
  have h := (c5_zone_resolution (fun _ _ => 5) ⟨14, 121⟩).1 [] zoneA [zoneB]
    (by intro y hy; simp at hy) (by decide)
  simpa using h

/-- C1: Starting from a cleared grace timer, a sequence of overspeeding
Delivering ticks emits no Violation record on the first tick (which only
starts the grace timer) nor on any tick less than 10,000 ms after it, and
emits exactly one Violation record on the first subsequent overspeeding
tick at or after 10,000 ms from grace start, provided the cooldown does
not apply at that tick. -/
theorem c1_grace_period (dist : Coord → Coord → ℚ) (zones : List Zone)
    (st : OverspeedState) (t0 : Tick) (early : List Tick) (tc : Tick)
    (h0 : st.overspeedStartTime = none)
    (ht0 : overspeedTick dist zones t0)
    (hearly : ∀ t ∈ early, overspeedTick dist zones t ∧
      t.now - t0.now < OVERSPEED_GRACE_PERIOD_MS)
    (htc : overspeedTick dist zones tc)
    (hc : OVERSPEED_GRACE_PERIOD_MS ≤ tc.now - t0.now)
    (hfree : VIOLATION_COOLDOWN_MS ≤ tc.now - st.lastViolationTs ∨
      zoneKeyAt dist zones tc.coord ≠ st.lastZoneViolationId.getD "default") :
    (runTicks dist zones (t0 :: early) st).2 = 0 ∧
    (runTicks dist zones (t0 :: (early ++ [tc])) st).2 = 1 := by
  obtain ⟨hs0, hmin0, hlim0⟩ := ht0
  obtain ⟨hsc, hminc, hlimc⟩ := htc
  have hstep0 : checkAndLogOverspeed dist zones t0.status t0.coord t0.speedKmh t0.now st
      = ({ st with overspeedStartTime := some t0.now }, false) := by
    rw [hs0]
    exact checkAndLog_start dist zones t0.coord t0.speedKmh t0.now st hmin0 hlim0 h0
  have hsteady : runTicks dist zones early { st with overspeedStartTime := some t0.now }
      = ({ st with overspeedStartTime := some t0.now }, 0) :=
    runTicks_steady dist zones early _ t0.now rfl hearly
  have hstepc : checkAndLogOverspeed dist zones tc.status tc.coord tc.speedKmh tc.now
      { st with overspeedStartTime := some t0.now }
      = ({ overspeedStartTime := none
           lastViolationTs := tc.now
           lastZoneViolationId := some (zoneKeyAt dist zones tc.coord) }, true) := by
    rw [hsc]
    exact checkAndLog_emit dist zones tc.coord tc.speedKmh tc.now _ t0.now hminc hlimc rfl
      hc hfree
  constructor
  · simp [runTicks, hstep0, hsteady]
  · simp [runTicks, hstep0, runTicks_append, hsteady, hstepc]

/-- Witness for C1: with no zones loaded (default limit 60) and speed 70,
nine overspeeding ticks spanning 9,900 ms emit zero violations and a
tenth tick 10,100 ms after grace start emits exactly one. -/
theorem c1_grace_period_witness :
    (runTicks (fun _ _ => 0) []
      (([0, 1200, 2500, 3700, 4900, 6100, 7300, 8500, 9900].map
        (fun n => ⟨"Delivering", ⟨0, 0⟩, 70, 1000000 + n⟩)) : List Tick)
      initialOverspeedState).2 = 0 ∧
    (runTicks (fun _ _ => 0) []
      (([0, 1200, 2500, 3700, 4900, 6100, 7300, 8500, 9900, 10100].map
        (fun n => ⟨"Delivering", ⟨0, 0⟩, 70, 1000000 + n⟩)) : List Tick)
      initialOverspeedState).2 = 1 := by
  have hover : ∀ n : ℤ, overspeedTick (fun _ _ => 0) []
      (⟨"Delivering", ⟨0, 0⟩, 70, n⟩ : Tick) := by
    intro n
    refine ⟨rfl, by show MIN_SPEED_FOR_VIOLATION ≤ (70 : ℤ); decide, ?_⟩
    show limitAt (fun _ _ => 0) [] ⟨0, 0⟩ < ((70 : ℤ) : ℚ)
    norm_num [limitAt, checkActiveZoneWithDetails, jsLimitOr, DEFAULT_SPEED_LIMIT]
  have h := c1_grace_period (fun _ _ => 0) [] initialOverspeedState
    ⟨"Delivering", ⟨0, 0⟩, 70, 1000000⟩
    (([1200, 2500, 3700, 4900, 6100, 7300, 8500, 9900].map
      (fun n => ⟨"Delivering", ⟨0, 0⟩, 70, 1000000 + n⟩)) : List Tick)
    ⟨"Delivering", ⟨0, 0⟩, 70, 1010100⟩
    rfl (hover 1000000)
    (by
      intro t ht
      simp only [List.mem_map, List.mem_cons, List.not_mem_nil, or_false] at ht
      obtain ⟨n, hn, rfl⟩ := ht
      refine ⟨hover _, ?_⟩
      show 1000000 + n - 1000000 < OVERSPEED_GRACE_PERIOD_MS
      rcases hn with rfl | rfl | rfl | rfl | rfl | rfl | rfl | rfl <;> decide)
    (hover 1010100) (by decide)
    (Or.inl (by show VIOLATION_COOLDOWN_MS ≤ 1010100 - 0; decide))
  simpa using h

/-- C2: A confirmed overspeed inside the 60 s cooldown window for the same
zone key writes no second record; a confirmed overspeed after the window,
or for a different zone key at any time, writes a record and updates the
last-write timestamp and zone key. Concretely, with a continuous
infraction in one zone, two confirmations within 60 s yield exactly one
record and a third confirmation after 61 s yields a second. -/
theorem c2_cooldown (dist : Coord → Coord → ℚ) (zones : List Zone) :
    (∀ (coord : Coord) (speedKmh now t0 : ℤ) (st : OverspeedState),
      MIN_SPEED_FOR_VIOLATION ≤ speedKmh →
      limitAt dist zones coord < (speedKmh : ℚ) →
      st.overspeedStartTime = some t0 →
      OVERSPEED_GRACE_PERIOD_MS ≤ now - t0 →
      now - st.lastViolationTs < VIOLATION_COOLDOWN_MS →
      zoneKeyAt dist zones coord = st.lastZoneViolationId.getD "default" →
      checkAndLogOverspeed dist zones "Delivering" coord speedKmh now st = (st, false))
    ∧ (∀ (coord : Coord) (speedKmh now t0 : ℤ) (st : OverspeedState),
      MIN_SPEED_FOR_VIOLATION ≤ speedKmh →
      limitAt dist zones coord < (speedKmh : ℚ) →
      st.overspeedStartTime = some t0 →
      OVERSPEED_GRACE_PERIOD_MS ≤ now - t0 →
      (VIOLATION_COOLDOWN_MS ≤ now - st.lastViolationTs ∨
        zoneKeyAt dist zones coord ≠ st.lastZoneViolationId.getD "default") →
      checkAndLogOverspeed dist zones "Delivering" coord speedKmh now st =
        ({ overspeedStartTime := none
           lastViolationTs := now
           lastZoneViolationId := some (zoneKeyAt dist zones coord) }, true))
    ∧ (runTicks (fun _ _ => 0) []
        (([100000, 110000, 115000, 125000].map
          (fun n => ⟨"Delivering", ⟨0, 0⟩, 70, n⟩)) : List Tick)
        initialOverspeedState).2 = 1
    ∧ (runTicks (fun _ _ => 0) []
        (([100000, 110000, 115000, 125000, 171000].map
          (fun n => ⟨"Delivering", ⟨0, 0⟩, 70, n⟩)) : List Tick)
        initialOverspeedState).2 = 2 := by
  refine ⟨?_, ?_, by decide, by decide⟩
  · intro coord speedKmh now t0 st hmin hlim hg hlong hcool hsame
    exact checkAndLog_suppress dist zones coord speedKmh now st t0 hmin hlim hg hlong
      hcool hsame
  · intro coord speedKmh now t0 st hmin hlim hg hlong hfree
    exact checkAndLog_emit dist zones coord speedKmh now st t0 hmin hlim hg hlong hfree

/-- Witness for C2: the suppression and emission branches applied at a
concrete state 15 s and 61 s after the last write in the same (default)
zone. -/
theorem c2_cooldown_witness :
    checkAndLogOverspeed (fun _ _ => 0) [] "Delivering" ⟨0, 0⟩ 70 125000
      ⟨some 115000, 110000, some "default"⟩ =
      (⟨some 115000, 110000, some "default"⟩, false)
    ∧ checkAndLogOverspeed (fun _ _ => 0) [] "Delivering" ⟨0, 0⟩ 70 171000
      ⟨some 115000, 110000, some "default"⟩ =
      (⟨none, 171000, some "default"⟩, true) := by
  have hlim : limitAt (fun _ _ => 0) [] ⟨0, 0⟩ < ((70 : ℤ) : ℚ) := by
    norm_num [limitAt, checkActiveZoneWithDetails, jsLimitOr, DEFAULT_SPEED_LIMIT]
  constructor
  · exact (c2_cooldown (fun _ _ => 0) []).1 ⟨0, 0⟩ 70 125000 115000
      ⟨some 115000, 110000, some "default"⟩ (by decide) hlim rfl (by decide) (by decide)
      (by decide)
  · exact (c2_cooldown (fun _ _ => 0) []).2.1 ⟨0, 0⟩ 70 171000 115000
      ⟨some 115000, 110000, some "default"⟩ (by decide) hlim rfl (by decide)
      (Or.inl (by decide))

/-- C3: On any tick where the status is not Delivering, or the speed is
below 5 km/h, or the speed is at or under the applicable limit, the grace
timer is cleared without writing a record and nothing else changes; a
later overspeeding tick from the cleared state starts a fresh grace
period at that tick, and no tick strictly less than 10,000 ms after the
new grace start emits anything. -/
theorem c3_grace_reset (dist : Coord → Coord → ℚ) (zones : List Zone) :
    (∀ (status : String) (coord : Coord) (speedKmh now : ℤ) (st : OverspeedState),
      status ≠ "Delivering" ∨ speedKmh < MIN_SPEED_FOR_VIOLATION ∨
        (speedKmh : ℚ) ≤ limitAt dist zones coord →
      checkAndLogOverspeed dist zones status coord speedKmh now st =
        ({ st with overspeedStartTime := none }, false))
    ∧ (∀ (t : Tick) (st : OverspeedState), st.overspeedStartTime = none →
      overspeedTick dist zones t →
      checkAndLogOverspeed dist zones t.status t.coord t.speedKmh t.now st =
        ({ st with overspeedStartTime := some t.now }, false))
    ∧ (∀ (t : Tick) (st : OverspeedState) (g : ℤ), st.overspeedStartTime = some g →
      overspeedTick dist zones t → t.now - g < OVERSPEED_GRACE_PERIOD_MS →
      checkAndLogOverspeed dist zones t.status t.coord t.speedKmh t.now st =
        (st, false)) := by
  refine ⟨?_, ?_, ?_⟩
  · intro status coord speedKmh now st h
    exact checkAndLog_reset dist zones status coord speedKmh now st h
  · intro t st h0 ⟨hs, hmin, hlim⟩
    rw [hs]
    exact checkAndLog_start dist zones t.coord t.speedKmh t.now st hmin hlim h0
  · intro t st g hg ⟨hs, hmin, hlim⟩ hshort
    rw [hs]
    exact checkAndLog_grace dist zones t.coord t.speedKmh t.now st g hmin hlim hg hshort

/-- Witness for C3: a mid-grace dip to speed 0 clears the grace timer, the
next overspeeding tick restarts the grace period at its own time, and a
tick 9,999 ms later still emits nothing even though more than 10 s have
passed since the original grace start. -/
theorem c3_grace_reset_witness :
    checkAndLogOverspeed (fun _ _ => 0) [] "Delivering" ⟨0, 0⟩ 0 105000
      ⟨some 100000, 0, none⟩ = (⟨none, 0, none⟩, false)
    ∧ checkAndLogOverspeed (fun _ _ => 0) [] "Delivering" ⟨0, 0⟩ 70 106000
      ⟨none, 0, none⟩ = (⟨some 106000, 0, none⟩, false)
    ∧ checkAndLogOverspeed (fun _ _ => 0) [] "Delivering" ⟨0, 0⟩ 70 115999
      ⟨some 106000, 0, none⟩ = (⟨some 106000, 0, none⟩, false) := by
  have hover : ∀ n : ℤ, overspeedTick (fun _ _ => 0) []
      (⟨"Delivering", ⟨0, 0⟩, 70, n⟩ : Tick) := by
    intro n
    refine ⟨rfl, by show MIN_SPEED_FOR_VIOLATION ≤ (70 : ℤ); decide, ?_⟩
    show limitAt (fun _ _ => 0) [] ⟨0, 0⟩ < ((70 : ℤ) : ℚ)
    norm_num [limitAt, checkActiveZoneWithDetails, jsLimitOr, DEFAULT_SPEED_LIMIT]
  refine ⟨?_, ?_, ?_⟩
  · exact (c3_grace_reset (fun _ _ => 0) []).1 "Delivering" ⟨0, 0⟩ 0 105000
      ⟨some 100000, 0, none⟩ (Or.inr (Or.inl (by decide)))
  · exact (c3_grace_reset (fun _ _ => 0) []).2.1 ⟨"Delivering", ⟨0, 0⟩, 70, 106000⟩
      ⟨none, 0, none⟩ rfl (hover 106000)
  · exact (c3_grace_reset (fun _ _ => 0) []).2.2 ⟨"Delivering", ⟨0, 0⟩, 70, 115999⟩
      ⟨some 106000, 0, none⟩ 106000 rfl (hover 115999) (by decide)

/-- C10: When a confirmed overspeed is suppressed by the cooldown, the
checker returns with the grace-start timestamp, last-violation timestamp
and last zone key all unchanged, and if overspeeding continues in the
same zone, any tick at or after the suppressed one whose time clears the
60 s cooldown emits a Violation immediately, without a fresh 10 s grace
period. -/
theorem c10_suppression_frame (dist : Coord → Coord → ℚ) (zones : List Zone)
    (coord : Coord) (speedKmh now t0 : ℤ) (st : OverspeedState)
    (hmin : MIN_SPEED_FOR_VIOLATION ≤ speedKmh)
    (hlim : limitAt dist zones coord < (speedKmh : ℚ))
    (hg : st.overspeedStartTime = some t0)
    (hlong : OVERSPEED_GRACE_PERIOD_MS ≤ now - t0)
    (hcool : now - st.lastViolationTs < VIOLATION_COOLDOWN_MS)
    (hsame : zoneKeyAt dist zones coord = st.lastZoneViolationId.getD "default") :
    checkAndLogOverspeed dist zones "Delivering" coord speedKmh now st = (st, false)
    ∧ (∀ speedKmh2 now2 : ℤ, MIN_SPEED_FOR_VIOLATION ≤ speedKmh2 →
      limitAt dist zones coord < (speedKmh2 : ℚ) → now ≤ now2 →
      VIOLATION_COOLDOWN_MS ≤ now2 - st.lastViolationTs →
      (checkAndLogOverspeed dist zones "Delivering" coord speedKmh2 now2 st).2 = true) := by
  constructor
  · exact checkAndLog_suppress dist zones coord speedKmh now st t0 hmin hlim hg hlong
      hcool hsame
  · intro speedKmh2 now2 hmin2 hlim2 hle hfree
    rw [checkAndLog_emit dist zones coord speedKmh2 now2 st t0 hmin2 hlim2 hg
      (by omega) (Or.inl hfree)]

/-- Witness for C10: a suppressed confirmation 15 s after the last write
leaves the state untouched, and the first tick after the 60 s cooldown
expires emits immediately with the old grace start. -/
theorem c10_suppression_frame_witness :
    checkAndLogOverspeed (fun _ _ => 0) [] "Delivering" ⟨0, 0⟩ 70 125000
      ⟨some 115000, 110000, some "default"⟩ =
      (⟨some 115000, 110000, some "default"⟩, false)
    ∧ (checkAndLogOverspeed (fun _ _ => 0) [] "Delivering" ⟨0, 0⟩ 70 170001
      ⟨some 115000, 110000, some "default"⟩).2 = true := by
  have hlim : limitAt (fun _ _ => 0) [] ⟨0, 0⟩ < ((70 : ℤ) : ℚ) := by
    norm_num [limitAt, checkActiveZoneWithDetails, jsLimitOr, DEFAULT_SPEED_LIMIT]
  have h := c10_suppression_frame (fun _ _ => 0) [] ⟨0, 0⟩ 70 125000 115000
    ⟨some 115000, 110000, some "default"⟩ (by decide) hlim rfl (by decide) (by decide)
    (by decide)
  exact ⟨h.1, h.2 70 170001 (by decide) hlim (by decide) (by decide)⟩

/-- C6 as stated is false: the 200 km/h plausibility guard is applied to
the candidate before the 1.12 correction factor, so a device speed of 55
m/s (gps candidate 198 km/h, under the guard) yields a returned estimate
of round(198 * 1.12) = 222 km/h, which is at least 200. -/
theorem c6_counterexample :
    (calculateSpeedKmh (fun _ _ => 0) 0 ⟨none, 0⟩ ⟨0, 0, some 55, 1000⟩).1 = 222
    ∧ 200 ≤ (calculateSpeedKmh (fun _ _ => 0) 0 ⟨none, 0⟩ ⟨0, 0, some 55, 1000⟩).1 := by
  norm_num [calculateSpeedKmh, gpsCandidate, derivedCandidate, jsRound,
    SPEED_CORRECTION_FACTOR]

/-- A value snapped below 2 km/h is either 0 or at least 2. -/
theorem snap_cases (k : ℤ) :
    (if k < 2 then 0 else k) = 0 ∨ 2 ≤ (if k < 2 then 0 else k) := by
  by_cases h : k < 2
  · simp [h]
  · simp [h]
    omega

/-- The returned estimate never exceeds 224 = round of just under
200 * 1.12. -/
theorem calculateSpeedKmh_le_224 (dist : Coord → Coord → ℚ) (now : ℤ)
    (prev : PrevFix) (pos : Position) :
    (calculateSpeedKmh dist now prev pos).1 ≤ 224 := by
  have hcorr : SPEED_CORRECTION_FACTOR = 28/25 := by
    norm_num [SPEED_CORRECTION_FACTOR]
  have hfd : ∀ o : Option ℚ,
      (match o with
        | some dv => if dv < 200 then jsRound dv else 0
        | none => (0 : ℤ)) ≤ 224 := by
    intro o
    rcases o with _ | dv
    · norm_num
    · by_cases hdv : dv < 200
      · simp only [if_pos hdv]
        exact jsRound_le_of_lt (n := 224) (by push_cast; linarith)
      · simp [hdv]
  have hbody : ∀ o : Option ℚ,
      (match o with
        | some g =>
          if g < 200 then jsRound (g * SPEED_CORRECTION_FACTOR)
          else (match derivedCandidate dist now prev pos with
            | some dv => if dv < 200 then jsRound dv else 0
            | none => (0 : ℤ))
        | none => (match derivedCandidate dist now prev pos with
            | some dv => if dv < 200 then jsRound dv else 0
            | none => (0 : ℤ))) ≤ 224 := by
    intro o
    rcases o with _ | g
    · exact hfd _
    · by_cases hg : g < 200
      · simp only [if_pos hg]
        refine jsRound_le_of_lt (n := 224) ?_
        rw [hcorr]
        push_cast
        linarith
      · simp only [if_neg hg]
        exact hfd _
  have := hbody (gpsCandidate pos)
  show (if _ < 2 then 0 else _) ≤ 224
  split_ifs with h
  · norm_num
  · exact this

/-- C6 amended: any candidate speed of 200 km/h or more (measured before
the 1.12 correction) is rejected; a rejected device candidate falls
through to the displacement-derived candidate, and when every candidate
is rejected or absent the estimate is 0. Because the correction factor is
applied after the guard, the estimator can still return values of 200 km/h
or more, but never more than 224. -/
theorem c6_glitch_guard_amended :
    (∀ (dist : Coord → Coord → ℚ) (now : ℤ) (prev : PrevFix) (pos : Position),
      (∀ g : ℚ, gpsCandidate pos = some g → 200 ≤ g) →
      (∀ dv : ℚ, derivedCandidate dist now prev pos = some dv → 200 ≤ dv) →
      (calculateSpeedKmh dist now prev pos).1 = 0)
    ∧ (∀ (dist : Coord → Coord → ℚ) (now : ℤ) (prev : PrevFix) (pos : Position)
        (g dv : ℚ),
      gpsCandidate pos = some g → 200 ≤ g →
      derivedCandidate dist now prev pos = some dv → dv < 200 →
      (calculateSpeedKmh dist now prev pos).1 =
        (if jsRound dv < 2 then 0 else jsRound dv))
    ∧ (∀ (dist : Coord → Coord → ℚ) (now : ℤ) (prev : PrevFix) (pos : Position),
      (calculateSpeedKmh dist now prev pos).1 ≤ 224) := by
  refine ⟨?_, ?_, calculateSpeedKmh_le_224⟩
  · intro dist now prev pos hg hd
    rcases hgps : gpsCandidate pos with _ | g
    · rcases hder : derivedCandidate dist now prev pos with _ | dv
      · simp [calculateSpeedKmh, hgps, hder]
      · have h200 := hd dv hder
        simp [calculateSpeedKmh, hgps, hder, not_lt.mpr h200]
    · have h200g := hg g hgps
      rcases hder : derivedCandidate dist now prev pos with _ | dv
      · simp [calculateSpeedKmh, hgps, hder, not_lt.mpr h200g]
      · have h200d := hd dv hder
        simp [calculateSpeedKmh, hgps, hder, not_lt.mpr h200g, not_lt.mpr h200d]
  · intro dist now prev pos g dv hgps h200g hder hlt
    simp [calculateSpeedKmh, hgps, hder, not_lt.mpr h200g, hlt]

/-- Witness for C6 amended: a device speed of 60 m/s (gps candidate 216,
rejected) with no previous fix (no derived candidate) yields 0. -/
theorem c6_glitch_guard_amended_witness :
    (calculateSpeedKmh (fun _ _ => 0) 0 ⟨none, 0⟩ ⟨0, 0, some 60, 1000⟩).1 = 0 := by
  refine c6_glitch_guard_amended.1 (fun _ _ => 0) 0 ⟨none, 0⟩ ⟨0, 0, some 60, 1000⟩
    (fun g hg => ?_) (fun dv hd => ?_)
  · rw [show gpsCandidate ⟨0, 0, some 60, 1000⟩ = some 216 from by norm_num [gpsCandidate]] at hg
    injection hg with h2
    rw [← h2]
    norm_num
  · rw [show derivedCandidate (fun _ _ => 0) 0 ⟨none, 0⟩ ⟨0, 0, some 60, 1000⟩ = none
      from rfl] at hd
    exact absurd hd (by simp)

/-- C7: The estimator prefers a positive finite device-reported speed
below the plausibility guard, returning the snapped
round(speed * 3.6 * 1.12) regardless of displacement (40 for 10 m/s);
with no usable device speed it derives the speed from displacement over
elapsed seconds floored at 1 s (36 for 100 m in 10 s); and every returned
value below 2 km/h is snapped to 0. -/
theorem c7_speed_estimator :
    (∀ (dist : Coord → Coord → ℚ) (now : ℤ) (prev : PrevFix) (pos : Position) (s : ℚ),
      pos.speedMps = some s → 0 < s → s * 3.6 < 200 →
      (calculateSpeedKmh dist now prev pos).1 =
        (if jsRound (s * 3.6 * SPEED_CORRECTION_FACTOR) < 2 then 0
         else jsRound (s * 3.6 * SPEED_CORRECTION_FACTOR)))
    ∧ (calculateSpeedKmh (fun _ _ => 0) 0 ⟨none, 0⟩ ⟨0, 0, some 10, 1000⟩).1 = 40
    ∧ (∀ (dist : Coord → Coord → ℚ) (now : ℤ) (prev : PrevFix) (pos : Position)
        (pc : Coord),
      pos.speedMps = none → prev.coord = some pc → prev.ts ≠ 0 →
      0 < dist pc ⟨pos.latitude, pos.longitude⟩ →
      dist pc ⟨pos.latitude, pos.longitude⟩ /
          max 1 ((((positionTs now pos : ℤ) : ℚ) - (prev.ts : ℚ)) / 1000) * 3.6 < 200 →
      (calculateSpeedKmh dist now prev pos).1 =
        (if jsRound (dist pc ⟨pos.latitude, pos.longitude⟩ /
              max 1 ((((positionTs now pos : ℤ) : ℚ) - (prev.ts : ℚ)) / 1000) * 3.6) < 2 then 0
         else jsRound (dist pc ⟨pos.latitude, pos.longitude⟩ /
              max 1 ((((positionTs now pos : ℤ) : ℚ) - (prev.ts : ℚ)) / 1000) * 3.6)))
    ∧ (calculateSpeedKmh (fun _ _ => 100) 0 ⟨some ⟨0, 0⟩, 1000⟩ ⟨0, 0, none, 11000⟩).1 = 36
    ∧ (∀ (dist : Coord → Coord → ℚ) (now : ℤ) (prev : PrevFix) (pos : Position),
      (calculateSpeedKmh dist now prev pos).1 = 0 ∨
        2 ≤ (calculateSpeedKmh dist now prev pos).1) := by
  refine ⟨?_,
    by norm_num [calculateSpeedKmh, gpsCandidate, derivedCandidate, jsRound,
      SPEED_CORRECTION_FACTOR], ?_,
    by norm_num [calculateSpeedKmh, gpsCandidate, derivedCandidate, jsRound, positionTs,
      SPEED_CORRECTION_FACTOR], ?_⟩
  · intro dist now prev pos s hs hspos hlt
    have hgc : gpsCandidate pos = some (s * 3.6) := by
      simp [gpsCandidate, hs, hspos]
    simp [calculateSpeedKmh, hgc, hlt]
  · intro dist now prev pos pc hnos hpc hts hdpos hlt
    have hgc : gpsCandidate pos = none := by
      simp [gpsCandidate, hnos]
    have hdt : (0 : ℚ) < max 1 ((((positionTs now pos : ℤ) : ℚ) - (prev.ts : ℚ)) / 1000) :=
      lt_of_lt_of_le zero_lt_one (le_max_left 1 _)
    have hdc : derivedCandidate dist now prev pos =
        some (dist pc ⟨pos.latitude, pos.longitude⟩ /
          max 1 ((((positionTs now pos : ℤ) : ℚ) - (prev.ts : ℚ)) / 1000) * 3.6) := by
      simp [derivedCandidate, hpc, hts, hdpos, hdt]
    simp [calculateSpeedKmh, hgc, hdc, hlt]
  · intro dist now prev pos
    exact snap_cases _

/-- Witness for C7: the device-speed branch applied at 10 m/s with a
nonzero distance function, still giving 40 km/h. -/
theorem c7_speed_estimator_witness :
    (calculateSpeedKmh (fun _ _ => 7) 0 ⟨some ⟨3, 4⟩, 500⟩ ⟨0, 0, some 10, 1000⟩).1 = 40 := by
  rw [c7_speed_estimator.1 (fun _ _ => 7) 0 ⟨some ⟨3, 4⟩, 500⟩ ⟨0, 0, some 10, 1000⟩ 10
    rfl (by norm_num) (by norm_num)]
  norm_num [jsRound, SPEED_CORRECTION_FACTOR]

/-- C8: While a shift is active, the running total distance increases by
the displacement from the last-known location exactly when that
displacement is strictly between 0.001 km and 0.5 km, and the last-known
location is updated to the new fix regardless of acceptance. -/
theorem c8_distance_band (dist : Coord → Coord → ℚ) (kmh : ℤ) (newLoc : Coord)
    (st : MetricsState) (ll : Coord) (h : st.lastLocation = some ll) :
    ((0.001 < dist ll newLoc ∧ dist ll newLoc < 0.5) →
      (metricsOnFix dist kmh newLoc st).totalDistance =
        st.totalDistance + dist ll newLoc)
    ∧ (¬(0.001 < dist ll newLoc ∧ dist ll newLoc < 0.5) →
      (metricsOnFix dist kmh newLoc st).totalDistance = st.totalDistance)
    ∧ (metricsOnFix dist kmh newLoc st).lastLocation = some newLoc := by
  refine ⟨?_, ?_, rfl⟩
  · intro hband
    simp [metricsOnFix, h, hband.1, hband.2]
  · intro hband
    simp [metricsOnFix, h, hband]

/-- Witness for C8: displacements of 0.0005 km and 0.6 km leave the total
unchanged, a displacement of 0.05 km is added, and the last-known
location updates in all three cases. -/
theorem c8_distance_band_witness :
    (metricsOnFix (fun _ _ => 0.0005) 10 ⟨1, 1⟩ ⟨1, 0, [], some ⟨0, 0⟩⟩).totalDistance = 1
    ∧ (metricsOnFix (fun _ _ => 0.6) 10 ⟨1, 1⟩ ⟨1, 0, [], some ⟨0, 0⟩⟩).totalDistance = 1
    ∧ (metricsOnFix (fun _ _ => 0.05) 10 ⟨1, 1⟩ ⟨1, 0, [], some ⟨0, 0⟩⟩).totalDistance
        = 1 + 0.05
    ∧ (metricsOnFix (fun _ _ => 0.6) 10 ⟨1, 1⟩ ⟨1, 0, [], some ⟨0, 0⟩⟩).lastLocation
        = some ⟨1, 1⟩ := by
  refine ⟨?_, ?_, ?_, ?_⟩
  · rw [(c8_distance_band (fun _ _ => 0.0005) 10 ⟨1, 1⟩ ⟨1, 0, [], some ⟨0, 0⟩⟩ ⟨0, 0⟩
      rfl).2.1 (by norm_num)]
  · rw [(c8_distance_band (fun _ _ => 0.6) 10 ⟨1, 1⟩ ⟨1, 0, [], some ⟨0, 0⟩⟩ ⟨0, 0⟩
      rfl).2.1 (by norm_num)]
  · rw [(c8_distance_band (fun _ _ => 0.05) 10 ⟨1, 1⟩ ⟨1, 0, [], some ⟨0, 0⟩⟩ ⟨0, 0⟩
      rfl).1 (by norm_num)]
  · exact (c8_distance_band (fun _ _ => 0.6) 10 ⟨1, 1⟩ ⟨1, 0, [], some ⟨0, 0⟩⟩ ⟨0, 0⟩
      rfl).2.2

/-- C9: Only strictly positive speed readings are appended to the history,
the reported average equals the rounded arithmetic mean of the history (0
when empty), and the sequence 0, 20, 0, 40 yields average 30. -/
theorem c9_average_speed :
    (∀ (dist : Coord → Coord → ℚ) (kmh : ℤ) (loc : Coord) (st : MetricsState),
      0 < kmh →
      (metricsOnFix dist kmh loc st).speedReadings = st.speedReadings ++ [kmh])
    ∧ (∀ (dist : Coord → Coord → ℚ) (kmh : ℤ) (loc : Coord) (st : MetricsState),
      kmh ≤ 0 → (metricsOnFix dist kmh loc st).speedReadings = st.speedReadings)
    ∧ calculateAverageSpeed [] = 0
    ∧ (∀ l : List ℤ, l ≠ [] →
      calculateAverageSpeed l = jsRound ((l.sum : ℚ) / l.length))
    ∧ calculateAverageSpeed ((runMetrics (fun _ _ => 0)
        [(0, ⟨0, 0⟩), (20, ⟨0, 0⟩), (0, ⟨0, 0⟩), (40, ⟨0, 0⟩)]
        ⟨0, 0, [], none⟩).speedReadings) = 30 := by
  refine ⟨?_, ?_, rfl, ?_,
    by norm_num [runMetrics, metricsOnFix, calculateAverageSpeed, jsRound]; decide⟩
  · intro dist kmh loc st h
    simp [metricsOnFix, h]
  · intro dist kmh loc st h
    simp [metricsOnFix, not_lt.mpr h]
  · intro l h
    simp [calculateAverageSpeed, h]

/-- Witness for C9: a positive reading of 20 is appended to an empty
history and a zero reading is not. -/
theorem c9_average_speed_witness :
    (metricsOnFix (fun _ _ => 0) 20 ⟨0, 0⟩ ⟨0, 0, [], none⟩).speedReadings = [20]
    ∧ (metricsOnFix (fun _ _ => 0) 0 ⟨0, 0⟩ ⟨0, 0, [], none⟩).speedReadings = [] := by
  constructor
  · rw [c9_average_speed.1 (fun _ _ => 0) 20 ⟨0, 0⟩ ⟨0, 0, [], none⟩ (by norm_num)]
    rfl
  · rw [c9_average_speed.2.1 (fun _ _ => 0) 0 ⟨0, 0⟩ ⟨0, 0, [], none⟩ (by norm_num)]

end Droptimize
